import Mathlib

/-!
Shallow embedding of `src/src/ui/dialog/import_dialog.cpp` from the
kicad-schematic-importer-windows repository: the `SchematicImportDialog`
class (a `wxDialog` subclass), its constructor, and its two event
handlers `OnVectorize` and `OnZoom`.

The wxWidgets toolkit calls performed by the constructor are embedded as
explicit state updates on a `DialogState` record, together with an
ordered trace of the calls (`BuildStep`), so temporal and ownership
properties of the construction can be stated.
-/

namespace SchematicImport

/-- wxWidgets style flag, value from the wx headers. -/
def wxRESIZE_BORDER : Nat := 0x0040

/-- wxWidgets style flag, value from the wx headers. -/
def wxCAPTION : Nat := 0x20000000

/-- wxWidgets style flag, value from the wx headers. -/
def wxCLOSE_BOX : Nat := 0x1000

/-- wxWidgets style flag, value from the wx headers. -/
def wxSYSTEM_MENU : Nat := 0x0800

/-- The default dialog style, as defined by wxWidgets:
`wxCAPTION | wxCLOSE_BOX | wxSYSTEM_MENU`. -/
def wxDEFAULT_DIALOG_STYLE : Nat := wxCAPTION ||| wxCLOSE_BOX ||| wxSYSTEM_MENU

/-- A wxSize: a width/height pair in pixels. -/
structure WxSize where
  width : Nat
  height : Nat
deriving DecidableEq, Repr

/-- The external parent window passed to the constructor; only its
identity matters to the embedding. -/
structure WxWindow where
  id : Nat
deriving DecidableEq, Repr

/-- The classes of toolkit widgets the dialog creates. -/
inductive WidgetKind
  | dialog
  | scrolledWindow
  | toolBar
  | button
  | statusBar
deriving DecidableEq, Repr

/-- A created child widget: its identity, class, owning parent widget
(`none` only for the dialog itself, whose parent is the external
window), and label text. -/
structure Widget where
  id : Nat
  kind : WidgetKind
  parent : Option Nat
  label : String
deriving DecidableEq, Repr

/-- The two member event handlers of `SchematicImportDialog`. -/
inductive Handler
  | onVectorize
  | onZoom
deriving DecidableEq, Repr

/-- Fixed identities for the widgets and the sizer allocated by the
constructor, in a fixed numbering (the dialog itself is widget 0). -/
def dialogId : Nat := 0

/-- Identity of the scrolled window created at line 20. -/
def scrolledWindowId : Nat := 1

/-- Identity of the toolbar created at line 24. -/
def toolbarId : Nat := 2

/-- Identity of the "Vectorize" button created at line 25. -/
def vectorizeBtnId : Nat := 3

/-- Identity of the "Zoom" button created at line 26. -/
def zoomBtnId : Nat := 4

/-- Identity of the status bar created at line 32. -/
def statusBarId : Nat := 5

/-- Identity of the main box sizer allocated at line 19. -/
def mainSizerId : Nat := 6

/-- The observable state of a `SchematicImportDialog`. -/
structure DialogState where
  /-- Identity of the owning parent window passed to the constructor. -/
  parentId : Nat
  /-- The window title passed to the `wxDialog` base constructor. -/
  title : String
  /-- The window style bits passed to the `wxDialog` base constructor. -/
  style : Nat
  /-- The window class of the dialog object itself. -/
  windowClass : WidgetKind
  /-- The minimum size set by `SetMinSize`, if any. -/
  minSize : Option WxSize
  /-- All child widgets created so far, in creation order. -/
  widgets : List Widget
  /-- Sizers allocated so far (a wx sizer is not a window). -/
  sizers : List Nat
  /-- The sizer installed on the dialog by `SetSizer`, if any; an
  installed sizer is owned and destroyed by the dialog. -/
  sizerSet : Option Nat
  /-- Identities of the controls added to the toolbar, in order. -/
  toolbarControls : List Nat
  /-- Scroll increment of the scrolled window, set by `SetScrollRate`. -/
  scrollRate : Option (Nat × Nat)
  /-- Identities of the items added to the main sizer. -/
  mainSizerItems : List Nat
  /-- Text of the status bar; `none` before `CreateStatusBar` runs,
  `some ""` right after (a fresh wx status bar shows empty text). -/
  statusText : Option String
  /-- Event bindings made by `Bind`: button identity paired with the
  handler it dispatches to. -/
  bindings : List (Nat × Handler)
  /-- Whether the dialog has been made visible. -/
  shown : Bool
deriving DecidableEq, Repr

/-- One toolkit call of the constructor body, for the construction
trace. -/
inductive BuildStep
  | createSizer (i : Nat)
  | createScrolledWindow
  | setScrollRate (x y : Nat)
  | createToolBar
  | createButton (label : String)
  | addControl (i : Nat)
  | realizeToolbar
  | createStatusBar
  | bindHandler (h : Handler)
  | setSizer (i : Nat)
  | setMinSize (s : WxSize)
  | showDialog
  | showModalDialog
  | enterEventLoop
deriving DecidableEq, Repr

/-- Embedding of the constructor body
`SchematicImportDialog::SchematicImportDialog(wxWindow* parent)`
(import_dialog.cpp lines 13-40), one state update per source statement,
paired with the ordered trace of the toolkit calls it performs. -/
def build (parent : WxWindow) : DialogState × List BuildStep :=
  -- wxDialog(parent, wxID_ANY, "Import Schematic", ..., wxDEFAULT_DIALOG_STYLE | wxRESIZE_BORDER)
  let d0 : DialogState :=
    { parentId := parent.id
      title := "Import Schematic"
      style := wxDEFAULT_DIALOG_STYLE ||| wxRESIZE_BORDER
      windowClass := WidgetKind.dialog
      minSize := none
      widgets := []
      sizers := []
      sizerSet := none
      toolbarControls := []
      scrollRate := none
      mainSizerItems := []
      statusText := none
      bindings := []
      shown := false }
  -- wxBoxSizer* mainSizer = new wxBoxSizer(wxVERTICAL);
  let d1 := { d0 with sizers := d0.sizers ++ [mainSizerId] }
  -- m_scrolledWindow = new wxScrolledWindow(this);
  let d2 := { d1 with widgets :=
    d1.widgets ++ [Widget.mk scrolledWindowId WidgetKind.scrolledWindow (some dialogId) ""] }
  -- m_scrolledWindow->SetScrollRate(5, 5);
  let d3 := { d2 with scrollRate := some (5, 5) }
  -- wxToolBar* toolbar = CreateToolBar();
  let d4 := { d3 with widgets :=
    d3.widgets ++ [Widget.mk toolbarId WidgetKind.toolBar (some dialogId) ""] }
  -- m_vectorizeBtn = new wxButton(toolbar, wxID_ANY, "Vectorize");
  let d5 := { d4 with widgets :=
    d4.widgets ++ [Widget.mk vectorizeBtnId WidgetKind.button (some toolbarId) "Vectorize"] }
  -- m_zoomBtn = new wxButton(toolbar, wxID_ANY, "Zoom");
  let d6 := { d5 with widgets :=
    d5.widgets ++ [Widget.mk zoomBtnId WidgetKind.button (some toolbarId) "Zoom"] }
  -- toolbar->AddControl(m_vectorizeBtn);
  let d7 := { d6 with toolbarControls := d6.toolbarControls ++ [vectorizeBtnId] }
  -- toolbar->AddControl(m_zoomBtn);
  let d8 := { d7 with toolbarControls := d7.toolbarControls ++ [zoomBtnId] }
  -- toolbar->Realize();  (no modelled state change)
  -- m_statusBar = CreateStatusBar();
  let d9 := { d8 with
    widgets := d8.widgets ++ [Widget.mk statusBarId WidgetKind.statusBar (some dialogId) ""]
    statusText := some "" }
  -- m_vectorizeBtn->Bind(wxEVT_BUTTON, &SchematicImportDialog::OnVectorize, this);
  let d10 := { d9 with bindings := d9.bindings ++ [(vectorizeBtnId, Handler.onVectorize)] }
  -- m_zoomBtn->Bind(wxEVT_BUTTON, &SchematicImportDialog::OnZoom, this);
  let d11 := { d10 with bindings := d10.bindings ++ [(zoomBtnId, Handler.onZoom)] }
  -- SetSizer(mainSizer);
  let d12 := { d11 with sizerSet := some mainSizerId }
  -- SetMinSize(wxSize(800, 600));
  let d13 := { d12 with minSize := some ⟨800, 600⟩ }
  (d13,
   [BuildStep.createSizer mainSizerId,
    BuildStep.createScrolledWindow,
    BuildStep.setScrollRate 5 5,
    BuildStep.createToolBar,
    BuildStep.createButton "Vectorize",
    BuildStep.createButton "Zoom",
    BuildStep.addControl vectorizeBtnId,
    BuildStep.addControl zoomBtnId,
    BuildStep.realizeToolbar,
    BuildStep.createStatusBar,
    BuildStep.bindHandler Handler.onVectorize,
    BuildStep.bindHandler Handler.onZoom,
    BuildStep.setSizer mainSizerId,
    BuildStep.setMinSize ⟨800, 600⟩])

/-- Construction of a `SchematicImportDialog` from its owning parent
window: the state the constructor leaves behind. -/
def construct (parent : WxWindow) : DialogState := (build parent).1

/-- The trace of toolkit calls the constructor performs, in order. -/
def constructTrace (parent : WxWindow) : List BuildStep := (build parent).2

/-- Embedding of `SchematicImportDialog::OnVectorize` (lines 42-44): the
body is empty, so the handler returns the state unchanged; `some` means
it returned normally (no exception). -/
def OnVectorize (d : DialogState) : Option DialogState := some d

/-- Embedding of `SchematicImportDialog::OnZoom` (lines 46-48): the body
is empty, so the handler returns the state unchanged; `some` means it
returned normally (no exception). -/
def OnZoom (d : DialogState) : Option DialogState := some d

/-- Run the named member handler on the dialog state. -/
def runHandler : Handler → DialogState → Option DialogState
  | Handler.onVectorize, d => OnVectorize d
  | Handler.onZoom, d => OnZoom d

/-- The handlers bound to a given button, in binding order. -/
def handlersFor (d : DialogState) (btn : Nat) : List Handler :=
  (d.bindings.filter (fun b => b.1 == btn)).map Prod.snd

/-- Dispatch of one button click, as the wx event loop does it: every
handler bound to the button runs once, in binding order; the result is
the final state (`none` if a handler raised) together with the list of
handler invocations the click caused. -/
def dispatchClick (d : DialogState) (btn : Nat) : Option DialogState × List Handler :=
  let hs := handlersFor d btn
  (hs.foldlM (fun s h => runHandler h s) d, hs)

/-- The user-level events the constructed dialog reacts to. -/
inductive UiEvent
  | clickVectorize
  | clickZoom
deriving DecidableEq, Repr

/-- Apply one user event to the dialog state (a handler that raised
would leave the state of the surviving dialog unchanged). -/
def applyEvent (d : DialogState) : UiEvent → DialogState
  | UiEvent.clickVectorize => ((dispatchClick d vectorizeBtnId).1).getD d
  | UiEvent.clickZoom => ((dispatchClick d zoomBtnId).1).getD d

/-- Run a sequence of user events on the dialog state. -/
def runEvents (d : DialogState) (es : List UiEvent) : DialogState :=
  es.foldl applyEvent d

/-- Look up a created widget by its identity. -/
def widgetById (d : DialogState) (i : Nat) : Option Widget :=
  d.widgets.find? (fun w => w.id == i)

/-- Whether the dialog is a modal window: in wxWidgets the `wxDialog`
window class is the modal dialog class, blocking interaction with its
parent while shown. The embedding records the window class the
constructor chose. -/
def isModal (d : DialogState) : Bool := decide (d.windowClass = WidgetKind.dialog)

/-- The direct child widgets of a given widget. -/
def childrenOf (ws : List Widget) (root : Nat) : List Widget :=
  ws.filter (fun w => w.parent == some root)

/-- All widget identities in the ownership subtree below `root`
(including `root`), with fuel bounding the recursion depth. -/
def subtreeIds (ws : List Widget) : Nat → Nat → List Nat
  | 0, root => [root]
  | fuel + 1, root =>
      root :: (childrenOf ws root).flatMap (fun w => subtreeIds ws fuel w.id)

/-- What destroying the dialog deallocates, per wx ownership semantics:
the dialog window and, recursively, every child widget, plus the sizer
installed by `SetSizer` (which the dialog owns). -/
def destroyedIds (d : DialogState) : List Nat :=
  subtreeIds d.widgets d.widgets.length dialogId ++ d.sizerSet.toList

/-- Everything one construction allocates: the dialog window itself,
each created child widget, and each allocated sizer. -/
def allocatedIds (d : DialogState) : List Nat :=
  dialogId :: d.widgets.map Widget.id ++ d.sizers

/-- The identities still live after `n` construct-then-destroy cycles of
the dialog, starting from an empty heap. -/
def liveAfterCycles (parent : WxWindow) : Nat → List Nat
  | 0 => []
  | n + 1 =>
      (liveAfterCycles parent n ++ allocatedIds (construct parent)).filter
        (fun i => !(destroyedIds (construct parent)).contains i)

/-- Embedding of `wxWindow::GetMinSize`: the minimum size the dialog
reports after construction (a window with no minimum set reports the
default size 0 by 0). -/
def GetMinSize (d : DialogState) : WxSize := d.minSize.getD (WxSize.mk 0 0)

/-- C1: After construction of a SchematicImportDialog, its toolbar
contains exactly two controls, the first a button labeled "Vectorize"
and the second a button labeled "Zoom", in that order. -/
theorem c1_toolbar_two_buttons (parent : WxWindow) :
    (construct parent).toolbarControls = [vectorizeBtnId, zoomBtnId] ∧
    widgetById (construct parent) vectorizeBtnId =
      some (Widget.mk vectorizeBtnId WidgetKind.button (some toolbarId) "Vectorize") ∧
    widgetById (construct parent) zoomBtnId =
      some (Widget.mk zoomBtnId WidgetKind.button (some toolbarId) "Zoom") :=
  ⟨rfl, rfl, rfl⟩

/-- C2: After construction of a SchematicImportDialog, the minimum size
it reports is no smaller than 800 by 600. -/
theorem c2_min_size_at_least_800_600 (parent : WxWindow) :
    800 ≤ (GetMinSize (construct parent)).width ∧
    600 ≤ (GetMinSize (construct parent)).height :=
  ⟨Nat.le_refl 800, Nat.le_refl 600⟩

/-- C3: A click of the "Vectorize" button on a constructed dialog
invokes the handler OnVectorize exactly once, and the invocation
returns normally (no exception) with the dialog state unchanged. -/
theorem c3_vectorize_click_once_no_effect (parent : WxWindow) :
    dispatchClick (construct parent) vectorizeBtnId =
      (some (construct parent), [Handler.onVectorize]) :=
  rfl

/-- C4: A click of the "Zoom" button on a constructed dialog invokes
the handler OnZoom exactly once, and the invocation returns normally
(no exception) with the dialog state unchanged. -/
theorem c4_zoom_click_once_no_effect (parent : WxWindow) :
    dispatchClick (construct parent) zoomBtnId =
      (some (construct parent), [Handler.onZoom]) :=
  rfl

/-- C5: For every parent window, the constructed dialog is a modal
window titled "Import Schematic" whose window style includes the resize
border, making it resizable. -/
theorem c5_modal_titled_resizable (parent : WxWindow) :
    (construct parent).title = "Import Schematic" ∧
    isModal (construct parent) = true ∧
    (construct parent).style &&& wxRESIZE_BORDER ≠ 0 := by
  refine ⟨rfl, rfl, ?_⟩
  have h : (construct parent).style = wxDEFAULT_DIALOG_STYLE ||| wxRESIZE_BORDER := rfl
  rw [h]
  decide

/-- C6: After construction, the scrollable viewport has a scroll
increment of exactly 5 units horizontally and 5 units vertically. -/
theorem c6_scroll_rate_five_five (parent : WxWindow) :
    (construct parent).scrollRate = some (5, 5) :=
  rfl

/-- C7: Construction takes exactly one parameter, the owning parent
window (the sole argument of `construct`, recorded in the state); during
construction both button-click handlers are bound and the layout is
configured (sizer installed, minimum size set), while the dialog never
becomes visible and no event loop is entered: the trace of toolkit
calls contains both bind calls and no show, show-modal or event-loop
call, and the resulting state is not shown. -/
theorem c7_construction_binds_before_visible (parent : WxWindow) :
    (construct parent).parentId = parent.id ∧
    BuildStep.bindHandler Handler.onVectorize ∈ constructTrace parent ∧
    BuildStep.bindHandler Handler.onZoom ∈ constructTrace parent ∧
    (construct parent).sizerSet = some mainSizerId ∧
    (construct parent).minSize = some (WxSize.mk 800 600) ∧
    (construct parent).shown = false ∧
    BuildStep.showDialog ∉ constructTrace parent ∧
    BuildStep.showModalDialog ∉ constructTrace parent ∧
    BuildStep.enterEventLoop ∉ constructTrace parent := by
  have h : constructTrace parent =
      [BuildStep.createSizer mainSizerId,
       BuildStep.createScrolledWindow,
       BuildStep.setScrollRate 5 5,
       BuildStep.createToolBar,
       BuildStep.createButton "Vectorize",
       BuildStep.createButton "Zoom",
       BuildStep.addControl vectorizeBtnId,
       BuildStep.addControl zoomBtnId,
       BuildStep.realizeToolbar,
       BuildStep.createStatusBar,
       BuildStep.bindHandler Handler.onVectorize,
       BuildStep.bindHandler Handler.onZoom,
       BuildStep.setSizer mainSizerId,
       BuildStep.setMinSize (WxSize.mk 800 600)] := rfl
  rw [h]
  exact ⟨rfl, by decide, by decide, rfl, rfl, rfl, by decide, by decide, by decide⟩

/-- C8: Every identity a construction allocates (the dialog, its child
widgets and the installed sizer) is deallocated when the dialog is
destroyed, and any number of construct-then-destroy cycles leaves the
heap empty: no owned widget outlives its dialog and repeated cycles
leak nothing. -/
theorem c8_owned_widgets_do_not_leak (parent : WxWindow) :
    (∀ i ∈ allocatedIds (construct parent), i ∈ destroyedIds (construct parent)) ∧
    ∀ n, liveAfterCycles parent n = [] := by
  constructor
  · have h1 : allocatedIds (construct parent) = [0, 1, 2, 3, 4, 5, 6] := rfl
    have h2 : destroyedIds (construct parent) = [0, 1, 2, 3, 4, 5, 6] := rfl
    rw [h1, h2]
    decide
  · intro n
    induction n with
    | zero => rfl
    | succ n ih =>
        have hstep : liveAfterCycles parent (n + 1) =
            (liveAfterCycles parent n ++ allocatedIds (construct parent)).filter
              (fun i => !(destroyedIds (construct parent)).contains i) := rfl
        rw [hstep, ih]
        rfl

/-- C9: After construction, the main sizer installed on the dialog
contains zero items; the scrolled window exists as a child of the
dialog but is not among the sizer's items, so it takes no part in the
configured layout. -/
theorem c9_main_sizer_empty (parent : WxWindow) :
    (construct parent).mainSizerItems = [] ∧
    (construct parent).sizerSet = some mainSizerId ∧
    widgetById (construct parent) scrolledWindowId =
      some (Widget.mk scrolledWindowId WidgetKind.scrolledWindow (some dialogId) "") ∧
    scrolledWindowId ∉ (construct parent).mainSizerItems := by
  refine ⟨rfl, rfl, rfl, ?_⟩
  have h : (construct parent).mainSizerItems = [] := rfl
  rw [h]
  exact List.not_mem_nil _

/-- Every user event (a click of either button) leaves the constructed
dialog state unchanged, since both bound handlers have empty bodies. -/
theorem applyEvent_construct (parent : WxWindow) (e : UiEvent) :
    applyEvent (construct parent) e = construct parent := by
  cases e <;> rfl

/-- C10: In every state reachable from construction by any sequence of
operations (clicks dispatching to OnVectorize or OnZoom), the status
bar text is unchanged from its initial empty value: no operation of the
dialog ever writes to the status bar. -/
theorem c10_status_bar_never_written (parent : WxWindow) (es : List UiEvent) :
    (runEvents (construct parent) es).statusText = some "" ∧
    (construct parent).statusText = some "" := by
  refine ⟨?_, rfl⟩
  have h : runEvents (construct parent) es = construct parent := by
    induction es with
    | nil => rfl
    | cons e es ih =>
        show runEvents (applyEvent (construct parent) e) es = construct parent
        rw [applyEvent_construct]
        exact ih
  rw [h]
  rfl

end SchematicImport
